import Mathlib

/-!
The AMQP 1.0 protocol plugin of the qpid broker

A shallow embedding of `src/qpid/broker/amqp/ProtocolPlugin.cpp`:

* `ProtocolImpl.create`   : the per-connection codec dispatcher,
* `ProtocolImpl.recover`  : recovery of a persisted, format-tagged buffer,
* `ProtocolPlugin.earlyInitialize` and `ProtocolPlugin.initialize`.

C++ exceptions are modelled by `Except`, a null pointer by `none`, log
statements by a list of emitted statements, and a mutable reference (the broker,
the buffer) by explicit state passing.  Classes whose code lives in other files
of the repository are modelled from the specification and marked as such.
-/

namespace qpid

/-- What a C++ `throw` carries: `qpid::Exception(what)` or the buffer's
`OutOfBounds`. -/
inductive Exception where
  | exception (what : String)
  | outOfBounds
  deriving DecidableEq, Repr

namespace log

/-- Severity of a `QPID_LOG` statement (only the two used by this file). -/
inductive Level where
  | debug
  | info
  deriving DecidableEq, Repr

/-- One emitted `QPID_LOG(level, text)` statement. -/
structure Statement where
  level : Level
  text : String
  deriving DecidableEq, Repr

end log

namespace framing

/-- Modelled from the spec: `ProtocolVersion` (qpid/framing/ProtocolVersion.h is
not part of the sources).  "major.minor pair plus a security-framing flag",
where "the security-framing flag is carried as a distinguished sub-value of the
version identifier": the three `uint8_t` fields. -/
structure ProtocolVersion where
  major : Nat
  minor : Nat
  protocol : Nat
  deriving DecidableEq, Repr

/-- Modelled from the spec: the constructor call `ProtocolVersion(major, minor)`
leaves the protocol sub-value at its default. -/
def ProtocolVersion.mk2 (major minor : Nat) : ProtocolVersion :=
  { major := major, minor := minor, protocol := 0 }

/-- Modelled from the spec: `ProtocolVersion::operator==`.  "A ProtocolVersion
is compared for exact major/minor equality before any dispatch proceeds"; the
protocol sub-value takes no part in the comparison. -/
def ProtocolVersion.eq (a b : ProtocolVersion) : Bool :=
  a.major == b.major && a.minor == b.minor

/-- The accessor `ProtocolVersion::getProtocol`. -/
def ProtocolVersion.getProtocol (v : ProtocolVersion) : Nat := v.protocol

/-- Modelled from the spec: the PersistedBuffer `qpid::framing::Buffer`
(qpid/framing/Buffer.h is not part of the sources), "a cursor over raw bytes
with a mutable read position".  A byte is read as an `unsigned char`, that is
modulo 256. -/
structure Buffer where
  data : List Nat
  position : Nat
  deriving DecidableEq, Repr

/-- Modelled from the spec: `Buffer::available`, the bytes between the cursor
and the end of the buffer. -/
def Buffer.available (b : Buffer) : Nat := b.data.length - b.position

/-- The byte under index `i`, as an `unsigned char`. -/
def Buffer.octetAt (b : Buffer) (i : Nat) : Nat := b.data.getD i 0 % 256

/-- Modelled from the spec: the value `Buffer::getLong` reads at the cursor, "4
bytes, unsigned, big/network order". -/
def Buffer.peekLong (b : Buffer) : Nat :=
  b.octetAt b.position * 2 ^ 24 + b.octetAt (b.position + 1) * 2 ^ 16
    + b.octetAt (b.position + 2) * 2 ^ 8 + b.octetAt (b.position + 3)

/-- Modelled from the spec: `Buffer::getLong`: "read a fixed-width leading tag
... from the buffer's current position, advancing the cursor"; "a buffer shorter
than 4 bytes causes a well-defined underflow failure". -/
def Buffer.getLong (b : Buffer) : Except Exception (Nat × Buffer) :=
  if b.position + 4 > b.data.length then .error .outOfBounds
  else .ok (b.peekLong, { b with position := b.position + 4 })

end framing

namespace sys

/-- Modelled from the spec: the output sink `qpid::sys::OutputControl`, an
external collaborator passed by reference; only its identity is kept. -/
structure OutputControl where
  addr : Nat
  deriving DecidableEq, Repr

/-- Modelled from the spec: `qpid::sys::SecuritySettings`, the "external /
transport-provided security context ... passed opaquely into verifier
construction". -/
structure SecuritySettings where
  ssf : Nat
  authid : String
  nodict : Bool
  deriving DecidableEq, Repr

end sys

/-- Modelled from the spec: the verifier family `qpid::SaslServer`.  A verifier
is recorded by how it was constructed: by the external factory
(`SaslFactory::getInstance().createServer(realm, encryptionRequired, external)`)
or as a `NullSaslServer(realm)`. -/
inductive SaslServer where
  | factoryServer (realm : String) (encryptionRequired : Bool)
      (external : sys.SecuritySettings)
  | nullSaslServer (realm : String)
  deriving DecidableEq, Repr

/-- The call `qpid::SaslFactory::getInstance().createServer(realm, enc, external)`. -/
def SaslFactory.createServer (realm : String) (encryptionRequired : Bool)
    (external : sys.SecuritySettings) : SaslServer :=
  SaslServer.factoryServer realm encryptionRequired external

/-- The constructor `qpid::NullSaslServer(realm)`. -/
def NullSaslServer.new (realm : String) : SaslServer :=
  SaslServer.nullSaslServer realm

namespace broker

namespace amqp

/-- Modelled from the spec: the "interconnects" collaborator
(qpid/broker/amqp/Interconnects.h is not part of the sources); "only its
construction/ownership contract matters here", so an object is its identity. -/
structure Interconnects where
  addr : Nat
  deriving DecidableEq, Repr

/-- The allocator state seen by `new Interconnects()`. -/
structure Heap where
  next : Nat
  deriving DecidableEq, Repr

/-- The expression `new Interconnects()`: a fresh object. -/
def Interconnects.new (h : Heap) : Interconnects × Heap :=
  ({ addr := h.next }, { next := h.next + 1 })

/-- The class `ProtocolImpl`, lines 53-67.  The member `Broker& broker` is a
reference to mutable state owned elsewhere: every operation below receives the
referenced broker as an explicit argument. -/
structure ProtocolImpl where
  interconnects : Interconnects
  domain : String
  deriving DecidableEq, Repr

/-- Modelled from the spec: the message class `qpid::broker::amqp::Message`
(qpid/broker/amqp/Message.h is not part of the sources): the size it was
constructed with and, once decoded, its header of type `H`. -/
structure Message (H : Type) where
  size : Nat
  header : Option H
  deriving DecidableEq, Repr

/-- The constructor `qpid::broker::amqp::Message(size)`. -/
def Message.new {H : Type} (size : Nat) : Message H :=
  { size := size, header := none }

/-- Modelled from the spec: `Message::decodeHeader(buffer)`.  "A separate,
external header-decode routine consumes exactly the header's byte span and
leaves the remainder as payload"; that routine is `readHeader`, and its failure
is the malformed-header fault. -/
def Message.decodeHeader {H : Type}
    (readHeader : framing.Buffer → Except Exception (H × framing.Buffer))
    (m : Message H) (buffer : framing.Buffer) :
    Except Exception (Message H × framing.Buffer) :=
  match readHeader buffer with
  | .error e => .error e
  | .ok (h, buffer1) => .ok ({ m with header := some h }, buffer1)

end amqp

/-- The part of `Broker::Options` read by this file: the AuthPolicy. -/
structure BrokerOptions where
  auth : Bool
  realm : String
  requireEncrypted : Bool
  deriving DecidableEq, Repr

/-- Modelled from the spec: the broker as seen by this file (qpid/broker/Broker.h
is not part of the sources): its options, its protocol registry ("keyed by a
stable protocol name string") and its object factory registry, both kept in
insertion order. -/
structure Broker where
  options : BrokerOptions
  protocolRegistry : List (String × amqp.ProtocolImpl)
  objectFactoryRegistry : List amqp.Interconnects
  deriving DecidableEq, Repr

/-- The accessor `Broker::getOptions`. -/
def Broker.getOptions (b : Broker) : BrokerOptions := b.options

/-- Modelled from the spec: `ProtocolRegistry::add(name, capability)`. -/
def Broker.protocolRegistryAdd (b : Broker) (key : String) (p : amqp.ProtocolImpl) :
    Broker :=
  { b with protocolRegistry := b.protocolRegistry ++ [(key, p)] }

/-- Modelled from the spec: `ObjectFactoryRegistry::add(factory)`. -/
def Broker.objectFactoryRegistryAdd (b : Broker) (i : amqp.Interconnects) : Broker :=
  { b with objectFactoryRegistry := b.objectFactoryRegistry ++ [i] }

/-- Modelled from the spec: the GenericMessage `qpid::broker::Message`, built
from two shared pointers, `Message(encoding, persistentContext)`; `E` is the
type of the encoding it wraps. -/
structure Message (E : Type) where
  encoding : E
  persistentContext : E
  deriving DecidableEq, Repr

/-- The class `RecoverableMessageImpl`, constructed from a broker message. -/
structure RecoverableMessageImpl (E : Type) where
  msg : Message E
  deriving DecidableEq, Repr

end broker

/-- Modelled from the spec: `Plugin::Target` (qpid/Plugin.h is not part of the
sources).  A target either is a `Broker`, so that
`dynamic_cast<qpid::broker::Broker*>` succeeds, or is some other target. -/
inductive Plugin.Target where
  | broker (b : broker.Broker)
  | other (name : String)
  deriving DecidableEq, Repr

namespace broker
namespace amqp

/-- The per-connection codec handed back by `create`, recorded by its
constructor call: `Sasl(out, id, broker, interconnects, authenticator, domain)`
or `Connection(out, id, broker, interconnects, saslInUse, domain)`. -/
inductive ConnectionCodec where
  | sasl (out : sys.OutputControl) (id : String) (broker : Broker)
      (interconnects : Interconnects) (authenticator : SaslServer) (domain : String)
  | connection (out : sys.OutputControl) (id : String) (broker : Broker)
      (interconnects : Interconnects) (saslInUse : Bool) (domain : String)
  deriving DecidableEq, Repr

/-- The constructor `ProtocolImpl::ProtocolImpl(i, b, d)`, lines 56-59: stores
its arguments and adds the interconnects to the broker's object factory
registry. -/
def ProtocolImpl.new (i : Interconnects) (b : Broker) (d : String) :
    ProtocolImpl × Broker :=
  ({ interconnects := i, domain := d }, b.objectFactoryRegistryAdd i)

/-- The method `ProtocolImpl::create`, lines 89-113.  `SASL` is the constant
`qpid::framing::ProtocolVersion::SASL`, declared outside the sources. -/
def ProtocolImpl.create (SASL : Nat) (self : ProtocolImpl) (broker : Broker)
    (v : framing.ProtocolVersion) (out : sys.OutputControl) (id : String)
    (external : sys.SecuritySettings) :
    List log.Statement × Except Exception (Option ConnectionCodec) :=
  if v.eq (framing.ProtocolVersion.mk2 1 0) then
    if v.getProtocol = SASL then
      if broker.getOptions.auth then
        ([⟨.info, "Using AMQP 1.0 (with SASL layer)"⟩],
          .ok (some (.sasl out id broker self.interconnects
            (SaslFactory.createServer broker.getOptions.realm
              broker.getOptions.requireEncrypted external)
            self.domain)))
      else
        let authenticator := NullSaslServer.new broker.getOptions.realm
        ([⟨.info, "Using AMQP 1.0 (with dummy SASL layer)"⟩],
          .ok (some (.sasl out id broker self.interconnects authenticator self.domain)))
    else
      if broker.getOptions.auth then
        ([], .error (.exception "SASL layer required!"))
      else
        ([⟨.info, "Using AMQP 1.0 (no SASL layer)"⟩],
          .ok (some (.connection out id broker self.interconnects false self.domain)))
  else
    ([], .ok none)

/-- The method `ProtocolImpl::recover`, lines 121-135.  `readHeader` is the
header-decode routine behind `Message::decodeHeader`.  The result carries the
statements logged, and either the exception thrown or the returned pointer
(`none` for the empty `shared_ptr`) with the buffer as the call leaves it. -/
def ProtocolImpl.recover {H : Type}
    (readHeader : framing.Buffer → Except Exception (H × framing.Buffer))
    (_self : ProtocolImpl) (buffer : framing.Buffer) :
    List log.Statement ×
      Except Exception (Option (RecoverableMessageImpl (Message H)) × framing.Buffer) :=
  let log0 : List log.Statement :=
    [⟨.debug, "Recovering, checking for 1.0 message format indicator..."⟩]
  match buffer.getLong with
  | .error e => (log0, .error e)
  | .ok (format, buffer1) =>
    if format = 0 then
      let log1 := log0 ++ [⟨.debug, "Recovered message IS in 1.0 format"⟩]
      let m : Message H := Message.new buffer1.available
      match m.decodeHeader readHeader buffer1 with
      | .error e => (log1, .error e)
      | .ok (m1, buffer2) =>
        (log1, .ok (some { msg := { encoding := m1, persistentContext := m1 } }, buffer2))
    else
      (log0 ++ [⟨.debug, "Recovered message is NOT in 1.0 format"⟩], .ok (none, buffer1))

/-- The plugin's options, lines 44-51: the single string option `domain`. -/
structure Options where
  domain : String
  deriving DecidableEq, Repr

/-- The plugin object, lines 69-85. -/
structure ProtocolPlugin where
  options : Options
  deriving DecidableEq, Repr

/-- The method `ProtocolPlugin::earlyInitialize`, lines 74-82. -/
def ProtocolPlugin.earlyInitialize (self : ProtocolPlugin) (heap : Heap)
    (target : Plugin.Target) : Plugin.Target × Heap :=
  match target with
  | .broker b =>
    let (i, heap1) := Interconnects.new heap
    let (impl, b1) := ProtocolImpl.new i b self.options.domain
    (.broker (b1.protocolRegistryAdd "AMQP 1.0" impl), heap1)
  | .other name => (.other name, heap)

/-- The method `ProtocolPlugin::initialize`, line 84: an empty body. -/
def ProtocolPlugin.initialize (_self : ProtocolPlugin) (heap : Heap)
    (target : Plugin.Target) : Plugin.Target × Heap :=
  (target, heap)

/-- Modelled from the spec: the native header format, which lives in
qpid/broker/amqp/Message.cpp, not part of the sources: the "native header
writer" and the "separate, external header-decode routine". -/
structure HeaderFormat (H : Type) where
  writeHeader : H → List Nat
  readHeader : framing.Buffer → Except Exception (H × framing.Buffer)

/-- A sample native header format with a single one-byte field, the durable
flag: written as the byte 0 or 1, and read back from one byte. -/
def durableFlagFormat : HeaderFormat Bool where
  writeHeader := fun durable => [if durable then 1 else 0]
  readHeader := fun b =>
    if b.position + 1 > b.data.length then .error .outOfBounds
    else if b.octetAt b.position = 0 then
      .ok (false, { b with position := b.position + 1 })
    else if b.octetAt b.position = 1 then
      .ok (true, { b with position := b.position + 1 })
    else .error (.exception "malformed header")

/-! ## The codec dispatcher -/

/-- Only the major and minor numbers decide whether a version is 1.0. -/
theorem version_eq_one_zero (v : framing.ProtocolVersion) :
    v.eq (framing.ProtocolVersion.mk2 1 0) = true ↔ v.major = 1 ∧ v.minor = 0 := by
  simp [framing.ProtocolVersion.eq, framing.ProtocolVersion.mk2]

/-- C1: for every version whose major is not 1 or whose minor is not 0, and
for every SASL constant, broker (so every auth policy), output sink, connection
id and security settings, `create` returns the null codec as an ordinary value,
having logged nothing and constructed neither a codec nor a verifier. -/
theorem create_not_applicable (SASL : Nat) (self : ProtocolImpl) (broker : Broker)
    (v : framing.ProtocolVersion) (out : sys.OutputControl) (id : String)
    (external : sys.SecuritySettings) (hv : v.major ≠ 1 ∨ v.minor ≠ 0) :
    ProtocolImpl.create SASL self broker v out id external = ([], .ok none) := by
  have h : ¬ (v.eq (framing.ProtocolVersion.mk2 1 0) = true) := by
    rw [version_eq_one_zero]
    intro hc
    rcases hv with hv | hv
    · exact hv hc.1
    · exact hv hc.2
  simp [ProtocolImpl.create, h]

/-- Version 2.0 with the SASL sub-value on a broker that requires
authentication: not applicable. -/
theorem create_not_applicable_witness :
    ProtocolImpl.create 3 ⟨⟨7⟩, "example.com"⟩ ⟨⟨true, "QPID", false⟩, [], []⟩
      ⟨2, 0, 3⟩ ⟨1⟩ "conn-1" ⟨0, "", false⟩ = ([], .ok none) :=
  create_not_applicable 3 ⟨⟨7⟩, "example.com"⟩ ⟨⟨true, "QPID", false⟩, [], []⟩
    ⟨2, 0, 3⟩ ⟨1⟩ "conn-1" ⟨0, "", false⟩ (Or.inl (by decide))

/-- C2: for version 1.0 declaring the SASL layer, `create` returns a `Sasl`
codec built from the given sink, connection id, broker, interconnects and
domain; its verifier is the one the factory creates from (realm,
requireEncrypted, external settings) exactly when auth is required, and is the
null verifier bound to the realm when auth is not required. -/
theorem create_sasl_layer (SASL : Nat) (self : ProtocolImpl) (broker : Broker)
    (v : framing.ProtocolVersion) (out : sys.OutputControl) (id : String)
    (external : sys.SecuritySettings)
    (hmajor : v.major = 1) (hminor : v.minor = 0) (hsasl : v.protocol = SASL) :
    ∃ verifier : SaslServer,
      (ProtocolImpl.create SASL self broker v out id external).2
          = .ok (some (.sasl out id broker self.interconnects verifier self.domain))
      ∧ (verifier = SaslFactory.createServer broker.options.realm
            broker.options.requireEncrypted external ↔ broker.options.auth = true)
      ∧ (broker.options.auth = false →
            verifier = NullSaslServer.new broker.options.realm) := by
  have h : v.eq (framing.ProtocolVersion.mk2 1 0) = true :=
    (version_eq_one_zero v).2 ⟨hmajor, hminor⟩
  cases hauth : broker.options.auth
  · refine ⟨NullSaslServer.new broker.options.realm, ?_, ?_, ?_⟩
    · simp [ProtocolImpl.create, h, hsasl, hauth, framing.ProtocolVersion.getProtocol,
        Broker.getOptions]
    · simp [NullSaslServer.new, SaslFactory.createServer]
    · intro _; rfl
  · refine ⟨SaslFactory.createServer broker.options.realm
      broker.options.requireEncrypted external, ?_, ?_, ?_⟩
    · simp [ProtocolImpl.create, h, hsasl, hauth, framing.ProtocolVersion.getProtocol,
        Broker.getOptions]
    · simp
    · intro hc; cases hc

/-- Version 1.0 with the SASL sub-value, auth not required: a `Sasl` codec
around the null verifier. -/
theorem create_sasl_layer_witness :
    ∃ verifier : SaslServer,
      (ProtocolImpl.create 3 ⟨⟨7⟩, "example.com"⟩ ⟨⟨false, "QPID", false⟩, [], []⟩
          ⟨1, 0, 3⟩ ⟨1⟩ "conn-1" ⟨0, "", false⟩).2
          = .ok (some (.sasl ⟨1⟩ "conn-1" ⟨⟨false, "QPID", false⟩, [], []⟩ ⟨7⟩ verifier
              "example.com"))
      ∧ (verifier = SaslFactory.createServer "QPID" false ⟨0, "", false⟩ ↔ false = true)
      ∧ (false = false → verifier = NullSaslServer.new "QPID") :=
  create_sasl_layer 3 ⟨⟨7⟩, "example.com"⟩ ⟨⟨false, "QPID", false⟩, [], []⟩
    ⟨1, 0, 3⟩ ⟨1⟩ "conn-1" ⟨0, "", false⟩ rfl rfl rfl

/-- C3: `create` throws if and only if the version is 1.0, it does not declare
the SASL layer and auth is required; what it throws then is the exception
"SASL layer required!", with nothing logged and no codec returned; in every
other case it returns normally. -/
theorem create_throws_iff (SASL : Nat) (self : ProtocolImpl) (broker : Broker)
    (v : framing.ProtocolVersion) (out : sys.OutputControl) (id : String)
    (external : sys.SecuritySettings) :
    ((∃ e, (ProtocolImpl.create SASL self broker v out id external).2 = .error e) ↔
        (v.major = 1 ∧ v.minor = 0 ∧ v.protocol ≠ SASL ∧ broker.options.auth = true))
    ∧ (∀ e, (ProtocolImpl.create SASL self broker v out id external).2 = .error e →
        ProtocolImpl.create SASL self broker v out id external
          = ([], .error (.exception "SASL layer required!")))
    ∧ (¬ (v.major = 1 ∧ v.minor = 0 ∧ v.protocol ≠ SASL ∧ broker.options.auth = true) →
        ∃ r, (ProtocolImpl.create SASL self broker v out id external).2 = .ok r) := by
  have hv := version_eq_one_zero v
  by_cases h10 : v.eq (framing.ProtocolVersion.mk2 1 0) = true
  · have hmm := hv.1 h10
    by_cases hs : v.protocol = SASL <;> cases hauth : broker.options.auth <;>
      simp [ProtocolImpl.create, h10, hs, hauth, hmm.1, hmm.2,
        framing.ProtocolVersion.getProtocol, Broker.getOptions]
  · have hmm : ¬ (v.major = 1 ∧ v.minor = 0) := fun hc => h10 (hv.2 hc)
    have hmm2 : v.major = 1 → ¬ v.minor = 0 := fun h1 h2 => hmm ⟨h1, h2⟩
    simp [ProtocolImpl.create, h10]
    intro h1 h2
    exact absurd h2 (hmm2 h1)

/-- C4: for version 1.0 without the SASL layer, when auth is not required,
`create` returns a plain `Connection` codec, without a verifier and with SASL
not in use, built from the given sink, connection id, broker, interconnects and
domain. -/
theorem create_plain_connection (SASL : Nat) (self : ProtocolImpl) (broker : Broker)
    (v : framing.ProtocolVersion) (out : sys.OutputControl) (id : String)
    (external : sys.SecuritySettings)
    (hmajor : v.major = 1) (hminor : v.minor = 0) (hplain : v.protocol ≠ SASL)
    (hauth : broker.options.auth = false) :
    ProtocolImpl.create SASL self broker v out id external
      = ([⟨.info, "Using AMQP 1.0 (no SASL layer)"⟩],
          .ok (some (.connection out id broker self.interconnects false self.domain))) := by
  have h : v.eq (framing.ProtocolVersion.mk2 1 0) = true :=
    (version_eq_one_zero v).2 ⟨hmajor, hminor⟩
  simp [ProtocolImpl.create, h, hplain, hauth, framing.ProtocolVersion.getProtocol,
    Broker.getOptions]

/-- Version 1.0 with the plain AMQP sub-value, auth not required. -/
theorem create_plain_connection_witness :
    ProtocolImpl.create 3 ⟨⟨7⟩, "example.com"⟩ ⟨⟨false, "QPID", true⟩, [], []⟩
        ⟨1, 0, 0⟩ ⟨1⟩ "conn-1" ⟨0, "", false⟩
      = ([⟨.info, "Using AMQP 1.0 (no SASL layer)"⟩],
          .ok (some (.connection ⟨1⟩ "conn-1" ⟨⟨false, "QPID", true⟩, [], []⟩ ⟨7⟩ false
            "example.com"))) :=
  create_plain_connection 3 ⟨⟨7⟩, "example.com"⟩ ⟨⟨false, "QPID", true⟩, [], []⟩
    ⟨1, 0, 0⟩ ⟨1⟩ "conn-1" ⟨0, "", false⟩ rfl rfl (by decide) rfl

/-! ## The buffer -/

/-- With four bytes available, `getLong` returns the big-endian value at the
cursor and moves the cursor by four. -/
theorem getLong_of_available (b : framing.Buffer) (h : 4 ≤ b.available) :
    b.getLong = .ok (b.peekLong, { b with position := b.position + 4 }) := by
  have h1 : ¬ (b.position + 4 > b.data.length) := by
    unfold framing.Buffer.available at h
    omega
  simp [framing.Buffer.getLong, h1]

/-- With fewer than four bytes available, `getLong` is the underflow failure. -/
theorem getLong_underflow (b : framing.Buffer) (h : b.available < 4) :
    b.getLong = .error .outOfBounds := by
  have h1 : b.position + 4 > b.data.length := by
    unfold framing.Buffer.available at h
    omega
  simp [framing.Buffer.getLong, h1]

/-! ## Recovery -/

/-- C5: for every buffer with at least four bytes available whose leading
big-endian 32-bit tag is not zero, `recover` returns the empty pointer
(Declined), whatever the header-decode routine is (it is not run and no message
is built), and leaves the buffer with the same bytes and the cursor moved by
exactly four. -/
theorem recover_declines_foreign_tag {H : Type}
    (readHeader : framing.Buffer → Except Exception (H × framing.Buffer))
    (self : ProtocolImpl) (buffer : framing.Buffer)
    (h4 : 4 ≤ buffer.available) (htag : buffer.peekLong ≠ 0) :
    ProtocolImpl.recover readHeader self buffer
      = ([⟨.debug, "Recovering, checking for 1.0 message format indicator..."⟩,
          ⟨.debug, "Recovered message is NOT in 1.0 format"⟩],
         .ok (none, { data := buffer.data, position := buffer.position + 4 })) := by
  simp [ProtocolImpl.recover, getLong_of_available buffer h4, htag]

/-- A five-byte record with tag 1: declined, cursor at 4. -/
theorem recover_declines_foreign_tag_witness :
    ProtocolImpl.recover durableFlagFormat.readHeader ⟨⟨7⟩, "example.com"⟩
        { data := [0, 0, 0, 1, 1], position := 0 }
      = ([⟨.debug, "Recovering, checking for 1.0 message format indicator..."⟩,
          ⟨.debug, "Recovered message is NOT in 1.0 format"⟩],
         .ok (none, { data := [0, 0, 0, 1, 1], position := 0 + 4 })) :=
  recover_declines_foreign_tag durableFlagFormat.readHeader ⟨⟨7⟩, "example.com"⟩
    { data := [0, 0, 0, 1, 1], position := 0 } (by decide) (by decide)

/-- C7: on a buffer with fewer than four bytes available `recover` fails with
the buffer's underflow failure, and on a buffer whose tag is 0 but whose header
decode fails with `e` it fails with that same `e`; in both cases the result is
a failure, so neither a present message nor Declined. -/
theorem recover_propagates_faults {H : Type}
    (readHeader : framing.Buffer → Except Exception (H × framing.Buffer))
    (self : ProtocolImpl) (buffer : framing.Buffer) (e : Exception)
    (hbad : (buffer.available < 4 ∧ e = .outOfBounds) ∨
      (4 ≤ buffer.available ∧ buffer.peekLong = 0 ∧
        readHeader { data := buffer.data, position := buffer.position + 4 } = .error e)) :
    (ProtocolImpl.recover readHeader self buffer).2 = .error e
      ∧ ∀ r, (ProtocolImpl.recover readHeader self buffer).2 ≠ .ok r := by
  have hmain : (ProtocolImpl.recover readHeader self buffer).2 = .error e := by
    rcases hbad with ⟨hshort, he⟩ | ⟨h4, htag, hdec⟩
    · simp [ProtocolImpl.recover, getLong_underflow buffer hshort, he]
    · simp [ProtocolImpl.recover, getLong_of_available buffer h4, htag,
        Message.decodeHeader, hdec]
  refine ⟨hmain, ?_⟩
  intro r hr
  rw [hmain] at hr
  cases hr

/-- A three-byte buffer underflows; a record with tag 0 and header byte 7 is
malformed for the sample format. -/
theorem recover_propagates_faults_witness :
    ((ProtocolImpl.recover durableFlagFormat.readHeader ⟨⟨7⟩, "example.com"⟩
        { data := [0, 0, 0], position := 0 }).2 = .error .outOfBounds
      ∧ ∀ r, (ProtocolImpl.recover durableFlagFormat.readHeader ⟨⟨7⟩, "example.com"⟩
        { data := [0, 0, 0], position := 0 }).2 ≠ .ok r)
    ∧ ((ProtocolImpl.recover durableFlagFormat.readHeader ⟨⟨7⟩, "example.com"⟩
        { data := [0, 0, 0, 0, 7], position := 0 }).2
          = .error (.exception "malformed header")
      ∧ ∀ r, (ProtocolImpl.recover durableFlagFormat.readHeader ⟨⟨7⟩, "example.com"⟩
        { data := [0, 0, 0, 0, 7], position := 0 }).2 ≠ .ok r) :=
  ⟨recover_propagates_faults durableFlagFormat.readHeader ⟨⟨7⟩, "example.com"⟩
      { data := [0, 0, 0], position := 0 } .outOfBounds (Or.inl ⟨by decide, rfl⟩),
   recover_propagates_faults durableFlagFormat.readHeader ⟨⟨7⟩, "example.com"⟩
      { data := [0, 0, 0, 0, 7], position := 0 } (.exception "malformed header")
      (Or.inr ⟨by decide, by decide, rfl⟩)⟩

/-- What `recover` does on a record it claims: with tag 0 and a header decode
that succeeds, it returns the message built with the size available behind the
tag, carrying the decoded header, and leaves the buffer where the decode left
it. -/
theorem recover_of_native_tag {H : Type}
    (readHeader : framing.Buffer → Except Exception (H × framing.Buffer))
    (self : ProtocolImpl) (buffer : framing.Buffer) (h : H) (buffer2 : framing.Buffer)
    (h4 : 4 ≤ buffer.available) (htag : buffer.peekLong = 0)
    (hdec : readHeader { data := buffer.data, position := buffer.position + 4 }
      = .ok (h, buffer2)) :
    ProtocolImpl.recover readHeader self buffer
      = ([⟨.debug, "Recovering, checking for 1.0 message format indicator..."⟩,
          ⟨.debug, "Recovered message IS in 1.0 format"⟩],
         .ok (some { msg :=
            { encoding := { size := buffer.data.length - (buffer.position + 4),
                            header := some h },
              persistentContext := { size := buffer.data.length - (buffer.position + 4),
                                     header := some h } } },
          buffer2)) := by
  simp [ProtocolImpl.recover, getLong_of_available buffer h4, htag, Message.decodeHeader,
    hdec, Message.new, framing.Buffer.available]

/-- C10: for every buffer with `n ≥ 4` bytes available whose tag is 0, and
every header-decode routine that succeeds (leaving the buffer anywhere), the
message `recover` returns has size `n - 4`, the bytes available right behind the
tag: the size is fixed before the decode runs and does not depend on what the
decode consumes. -/
theorem recover_size_is_available_behind_tag {H : Type}
    (readHeader : framing.Buffer → Except Exception (H × framing.Buffer))
    (self : ProtocolImpl) (buffer : framing.Buffer) (n : Nat) (h : H)
    (buffer2 : framing.Buffer)
    (hn : buffer.available = n) (h4 : 4 ≤ n) (htag : buffer.peekLong = 0)
    (hdec : readHeader { data := buffer.data, position := buffer.position + 4 }
      = .ok (h, buffer2)) :
    ∃ rm, (ProtocolImpl.recover readHeader self buffer).2 = .ok (some rm, buffer2)
      ∧ rm.msg.encoding.size = n - 4
      ∧ rm.msg.encoding.size
          = framing.Buffer.available
              { data := buffer.data, position := buffer.position + 4 }
      ∧ rm.msg.encoding.header = some h := by
  subst hn
  rw [recover_of_native_tag readHeader self buffer h buffer2 h4 htag hdec]
  refine ⟨_, rfl, ?_, ?_, rfl⟩
  · simp only [framing.Buffer.available]
    omega
  · simp only [framing.Buffer.available]

/-- A six-byte record, tag 0, durable flag 1, one body byte: the message has
size 2 although only one byte is left behind the header. -/
theorem recover_size_is_available_behind_tag_witness :
    ∃ rm, (ProtocolImpl.recover durableFlagFormat.readHeader ⟨⟨7⟩, "example.com"⟩
          { data := [0, 0, 0, 0, 1, 9], position := 0 }).2
        = .ok (some rm, { data := [0, 0, 0, 0, 1, 9], position := 5 })
      ∧ rm.msg.encoding.size = 6 - 4
      ∧ rm.msg.encoding.size
          = framing.Buffer.available { data := [0, 0, 0, 0, 1, 9], position := 0 + 4 }
      ∧ rm.msg.encoding.header = some true :=
  recover_size_is_available_behind_tag durableFlagFormat.readHeader ⟨⟨7⟩, "example.com"⟩
    { data := [0, 0, 0, 0, 1, 9], position := 0 } 6 true
    { data := [0, 0, 0, 0, 1, 9], position := 5 } (by decide) (by decide) (by decide) rfl

/-! ## Registration -/

/-- C9: on a `Broker` target, `earlyInitialize` allocates one interconnects
object, appends it once to the object factory registry, and appends one entry
to the protocol registry, named "AMQP 1.0", holding the bundle built from that
interconnects object and the configured domain; the options are untouched.  On
any other target nothing changes.  The later `initialize` phase changes
nothing on any target. -/
theorem registration_in_early_initialization (self : ProtocolPlugin) (heap : Heap) :
    (∀ b : Broker,
        ProtocolPlugin.earlyInitialize self heap (.broker b)
          = (.broker
              { options := b.options,
                protocolRegistry := b.protocolRegistry ++
                  [("AMQP 1.0", { interconnects := { addr := heap.next },
                                  domain := self.options.domain })],
                objectFactoryRegistry := b.objectFactoryRegistry ++ [{ addr := heap.next }] },
             { next := heap.next + 1 }))
    ∧ (∀ name : String,
        ProtocolPlugin.earlyInitialize self heap (.other name) = (.other name, heap))
    ∧ (∀ target : Plugin.Target,
         ProtocolPlugin.initialize self heap target = (target, heap)) :=
  ⟨fun _ => rfl, fun _ => rfl, fun _ => rfl⟩

end amqp
end broker
end qpid
